import Mathlib

/-!
Shallow embedding of `TSCEChatCompletionClient`
(`src/python/packages/autogen-ext/src/autogen_ext/models/tsce/__init__.py`).

The adapter converts framework messages to role/content pairs, calls the
external TSCE harness, and wraps the harness's textual reply into a
`CreateResult`.  The harness is opaque: it is modelled as a function from
the converted chat to a reply string (or, for the error-propagation claim,
to `Except`).  Python's mutable `_cur_usage` / `_total_usage` fields are
modelled by explicit state passing of `AdapterState`.
-/

/-- A normalized role/content pair, the `dict[str, str]` entries built by
`_convert_messages`. -/
structure ChatPair where
  role : String
  content : String
deriving Repr, DecidableEq

/-- Payload of a function call, as carried by a non-string assistant
message (`List[FunctionCall]` in `autogen_core.models`). -/
structure FunctionCall where
  id : String
  arguments : String
  name : String
deriving Repr, DecidableEq

/-- Content of a `UserMessage`: either a plain string or a list of parts
(the non-string case `List[str | Image]`; the adapter never inspects the
parts, only the string/non-string distinction). -/
inductive UserContent where
  | str (s : String)
  | parts (l : List String)
deriving Repr, DecidableEq

/-- Content of an `AssistantMessage`: either a plain string or a list of
function calls. -/
inductive AssistantContent where
  | str (s : String)
  | calls (l : List FunctionCall)
deriving Repr, DecidableEq

/-- One entry of a `FunctionExecutionResultMessage`. -/
structure FunctionExecutionResult where
  content : String
  callId : String
deriving Repr, DecidableEq

/-- The `LLMMessage` union: `SystemMessage | UserMessage | AssistantMessage |
FunctionExecutionResultMessage`.  `SystemMessage.content` is typed `str` in
`autogen_core`. -/
inductive LLMMessage where
  | system (content : String)
  | user (content : UserContent)
  | assistant (content : AssistantContent)
  | functionExecutionResult (content : List FunctionExecutionResult)
deriving Repr, DecidableEq

/-- `RequestUsage` counters. -/
structure RequestUsage where
  prompt_tokens : Nat
  completion_tokens : Nat
deriving Repr, DecidableEq

/-- `CreateResult` as built by `create`: finish reason, reply content,
usage of this call, cached flag. -/
structure CreateResult where
  finish_reason : String
  content : String
  usage : RequestUsage
  cached : Bool
deriving Repr, DecidableEq

/-- The adapter's mutable usage fields `_cur_usage` and `_total_usage`. -/
structure AdapterState where
  cur_usage : RequestUsage
  total_usage : RequestUsage
deriving Repr, DecidableEq

/-- State set up by `__init__`: both usage counters zero. -/
def adapterInit : AdapterState :=
  { cur_usage := ⟨0, 0⟩, total_usage := ⟨0, 0⟩ }

/-- A tool descriptor (`Tool | ToolSchema`); the adapter never reads it, so
only its presence is modelled. -/
structure ToolSchema where
  name : String
deriving Repr, DecidableEq

/-- A cancellation token; the adapter never reads it. -/
structure CancellationToken where
  tag : Nat
deriving Repr, DecidableEq

/-- Python's `str.split()` with no separator: split on whitespace and drop
the empty fragments produced by leading/trailing/consecutive whitespace.
Modelled on the string's character list so it computes by structural
recursion. -/
def pySplit (s : String) : List String :=
  ((s.data.splitOnP (fun c => c.isWhitespace)).map String.mk).filter
    (fun t => t ≠ "")

/-- `_convert_messages`: one pass over the messages, appending
- `{"role": "system", "content": m.content}` for a system message,
- `{"role": "user", "content": content if str else ""}` for a user message,
- `{"role": "assistant", "content": m.content}` for an assistant message
  only when its content is a plain string,
- nothing for a `FunctionExecutionResultMessage`. -/
def convertMessages : List LLMMessage → List ChatPair
  | [] => []
  | LLMMessage.system c :: rest =>
      ⟨"system", c⟩ :: convertMessages rest
  | LLMMessage.user c :: rest =>
      (match c with
       | UserContent.str s => ChatPair.mk "user" s
       | UserContent.parts _ => ChatPair.mk "user" "") :: convertMessages rest
  | LLMMessage.assistant c :: rest =>
      (match c with
       | AssistantContent.str s => [ChatPair.mk "assistant" s]
       | AssistantContent.calls _ => []) ++ convertMessages rest
  | LLMMessage.functionExecutionResult _ :: rest => convertMessages rest

/-- `create`: convert the messages, call the harness, count the reply's
whitespace tokens, set `_cur_usage`, add it into `_total_usage`, and return
a `CreateResult` with finish reason `"stop"` and `cached=False`.  `tools`,
`json_output`, `extra_create_args` and `cancellation_token` are accepted
but never read, exactly as in the source. -/
def create (harness : List ChatPair → String) (messages : List LLMMessage)
    (tools : List ToolSchema) (json_output : Option Bool)
    (extra_create_args : List (String × String))
    (cancellation_token : Option CancellationToken)
    (st : AdapterState) : CreateResult × AdapterState :=
  let chat := convertMessages messages
  let content := harness chat
  let tokens := pySplit content
  let cur : RequestUsage := ⟨0, tokens.length⟩
  let total : RequestUsage :=
    ⟨st.total_usage.prompt_tokens + cur.prompt_tokens,
     st.total_usage.completion_tokens + cur.completion_tokens⟩
  (⟨"stop", content, cur, false⟩, ⟨cur, total⟩)

/-- The string chunks yielded by `create_stream`'s loop: token `i` of
`result.content.split()` gets a trailing space when `i < len(split) - 1`,
the final token does not. -/
def streamChunks (toks : List String) : List String :=
  toks.mapIdx (fun i tok => if i < toks.length - 1 then tok ++ " " else tok)

/-- `create_stream`: run `create`, then yield the space-suffixed tokens of
the result content followed by the `CreateResult` itself. -/
def create_stream (harness : List ChatPair → String) (messages : List LLMMessage)
    (tools : List ToolSchema) (json_output : Option Bool)
    (extra_create_args : List (String × String))
    (cancellation_token : Option CancellationToken)
    (st : AdapterState) : List (Sum String CreateResult) × AdapterState :=
  let r := create harness messages tools json_output extra_create_args
    cancellation_token st
  ((streamChunks (pySplit r.1.content)).map Sum.inl ++ [Sum.inr r.1], r.2)

/-- `count_tokens`: always 0. -/
def count_tokens (messages : List LLMMessage) (tools : List ToolSchema) : Nat :=
  0

/-- `remaining_tokens`: always 0. -/
def remaining_tokens (messages : List LLMMessage) (tools : List ToolSchema) : Nat :=
  0

/-- `actual_usage`: returns `_cur_usage`. -/
def actual_usage (st : AdapterState) : RequestUsage :=
  st.cur_usage

/-- `total_usage`: returns `_total_usage`. -/
def total_usage (st : AdapterState) : RequestUsage :=
  st.total_usage

/-- `create` against a harness that may raise: `reply = self._tsce(chat)`
happens before any usage-field assignment, so when the harness raises the
exception propagates and the state is returned untouched. -/
def createE (harness : List ChatPair → Except String String)
    (messages : List LLMMessage) (st : AdapterState) :
    Except String CreateResult × AdapterState :=
  let chat := convertMessages messages
  match harness chat with
  | Except.error e => (Except.error e, st)
  | Except.ok content =>
    let tokens := pySplit content
    let cur : RequestUsage := ⟨0, tokens.length⟩
    let total : RequestUsage :=
      ⟨st.total_usage.prompt_tokens + cur.prompt_tokens,
       st.total_usage.completion_tokens + cur.completion_tokens⟩
    (Except.ok ⟨"stop", content, cur, false⟩, ⟨cur, total⟩)

/-- The string elements of a stream (the yielded chunks other than the
final `CreateResult`). -/
def chunkStrings (l : List (Sum String CreateResult)) : List String :=
  l.filterMap (fun x => match x with
    | Sum.inl s => some s
    | Sum.inr _ => none)

/-- Concatenation of a list of strings, in order. -/
def concatAll : List String → String
  | [] => ""
  | s :: rest => s ++ concatAll rest

/-- Tokens joined by single spaces (the whitespace-normalized text the
stream chunks reconstruct). -/
def joinSpace : List String → String
  | [] => ""
  | [t] => t
  | t :: rest => t ++ " " ++ joinSpace rest

/-- Per-message output of `_convert_messages`, used to state order
preservation: the converted list is the in-order concatenation of these. -/
def emitMessage : LLMMessage → List ChatPair
  | LLMMessage.system c => [⟨"system", c⟩]
  | LLMMessage.user (UserContent.str s) => [⟨"user", s⟩]
  | LLMMessage.user (UserContent.parts _) => [⟨"user", ""⟩]
  | LLMMessage.assistant (AssistantContent.str s) => [⟨"assistant", s⟩]
  | LLMMessage.assistant (AssistantContent.calls _) => []
  | LLMMessage.functionExecutionResult _ => []
lemma convertMessages_append (l1 l2 : List LLMMessage) :
    convertMessages (l1 ++ l2) = convertMessages l1 ++ convertMessages l2 := by
  induction l1 with
  | nil => rfl
  | cons m rest ih =>
    cases m with
    | system c => simp [convertMessages, ih]
    | user c => cases c <;> simp [convertMessages, ih]
    | assistant c => cases c <;> simp [convertMessages, ih]
    | functionExecutionResult c => simp [convertMessages, ih]

lemma length_convertMessages_le (l : List LLMMessage) :
    (convertMessages l).length ≤ l.length := by
  induction l with
  | nil => simp [convertMessages]
  | cons m rest ih =>
    cases m with
    | system c => simpa [convertMessages] using ih
    | user c => cases c <;> simpa [convertMessages] using ih
    | assistant c =>
      cases c with
      | str s => simpa [convertMessages] using ih
      | calls cs =>
        simp only [convertMessages, List.nil_append, List.length_cons]
        exact Nat.le_succ_of_le ih
    | functionExecutionResult c =>
      simp only [convertMessages, List.length_cons]
      exact Nat.le_succ_of_le ih

lemma mapIdx_if_all (l : List String) (c : Nat → Prop) [DecidablePred c]
    (h : ∀ i, i < l.length → c i) :
    l.mapIdx (fun i tok => if c i then tok ++ " " else tok)
      = l.map (fun tok => tok ++ " ") := by
  induction l generalizing c with
  | nil => rfl
  | cons a l ih =>
    rw [List.mapIdx_cons]
    have h0 : c 0 := h 0 (by simp)
    simp only [if_pos h0, List.map_cons]
    congr 1
    exact ih (fun i => c (i + 1)) (fun i hi => h (i + 1) (by simpa using hi))

lemma streamChunks_concat (l : List String) (e : String) :
    streamChunks (l ++ [e]) = l.map (fun tok => tok ++ " ") ++ [e] := by
  unfold streamChunks
  rw [List.mapIdx_append_one]
  have hlen : (l ++ [e]).length - 1 = l.length := by simp
  rw [hlen]
  congr 1
  · exact mapIdx_if_all l (fun i => i < l.length) (fun i hi => hi)
  · simp

lemma joinSpace_cons_cons (a b : String) (l : List String) :
    joinSpace (a :: b :: l) = a ++ " " ++ joinSpace (b :: l) := rfl

lemma concatAll_map_space (l : List String) (e : String) :
    concatAll (l.map (fun tok => tok ++ " ") ++ [e]) = joinSpace (l ++ [e]) := by
  induction l with
  | nil => simp [concatAll, joinSpace]
  | cons a l ih =>
    have h1 : concatAll ((a :: l).map (fun tok => tok ++ " ") ++ [e])
        = (a ++ " ") ++ joinSpace (l ++ [e]) := by
      simp only [List.map_cons, List.cons_append, concatAll, List.append_eq, ih]
    rw [h1, List.cons_append]
    cases hl : l ++ [e] with
    | nil => simp at hl
    | cons b rest => rw [joinSpace_cons_cons]

lemma concatAll_streamChunks (toks : List String) :
    concatAll (streamChunks toks) = joinSpace toks := by
  rcases List.eq_nil_or_concat toks with h | ⟨l, e, h⟩
  · subst h; rfl
  · subst h
    rw [List.concat_eq_append, streamChunks_concat, concatAll_map_space]

lemma chunkStrings_inl_concat (l : List String) (r : CreateResult) :
    chunkStrings (l.map Sum.inl ++ [Sum.inr r]) = l := by
  simp only [chunkStrings, List.filterMap_append, List.filterMap_map]
  have h : ((fun x : Sum String CreateResult => match x with
      | Sum.inl s => some s
      | Sum.inr _ => none) ∘ Sum.inl) = fun s : String => some s := rfl
  rw [h, List.filterMap_some]
  simp
/-- C1 (amended): the string chunks emitted by `create_stream`, concatenated,
reconstruct the content of the equivalent `create` result up to whitespace
normalization (the content's whitespace tokens joined by single spaces);
the final emitted element is the `CreateResult` equal to that result, and
both calls leave the adapter in the same state. -/
theorem create_stream_reconstructs (harness : List ChatPair → String)
    (messages : List LLMMessage) (tools : List ToolSchema)
    (json_output : Option Bool) (extra_create_args : List (String × String))
    (cancellation_token : Option CancellationToken) (st : AdapterState) :
    concatAll (chunkStrings (create_stream harness messages tools json_output
        extra_create_args cancellation_token st).1)
      = joinSpace (pySplit (create harness messages tools json_output
        extra_create_args cancellation_token st).1.content)
    ∧ (create_stream harness messages tools json_output extra_create_args
        cancellation_token st).1.getLast?
      = some (Sum.inr (create harness messages tools json_output
        extra_create_args cancellation_token st).1)
    ∧ (create_stream harness messages tools json_output extra_create_args
        cancellation_token st).2
      = (create harness messages tools json_output extra_create_args
        cancellation_token st).2 := by
  refine ⟨?_, ?_, rfl⟩
  · rw [show (create_stream harness messages tools json_output
        extra_create_args cancellation_token st).1
      = (streamChunks (pySplit (create harness messages tools json_output
          extra_create_args cancellation_token st).1.content)).map Sum.inl
        ++ [Sum.inr (create harness messages tools json_output
          extra_create_args cancellation_token st).1] from rfl]
    rw [chunkStrings_inl_concat, concatAll_streamChunks]
  · exact List.getLast?_concat _

/-- C1 counterexample: with a harness replying `"a  b"` (double space), the
concatenated chunks are `"a b"`, not the result content `"a  b"`. -/
theorem create_stream_reconstructs_cex :
    ¬ concatAll (chunkStrings (create_stream (fun _ => "a  b") [] [] none []
        none adapterInit).1)
      = (create (fun _ => "a  b") [] [] none [] none adapterInit).1.content := by
  decide

/-- C2: `_convert_messages` emits, in input order, the per-message pairs of
`emitMessage`, so the relative order of surviving messages is preserved; a
`FunctionExecutionResultMessage` always emits nothing. -/
theorem convertMessages_order_and_drop_toolresults :
    (∀ msgs : List LLMMessage, convertMessages msgs = msgs.flatMap emitMessage)
    ∧ ∀ rs : List FunctionExecutionResult,
      emitMessage (LLMMessage.functionExecutionResult rs) = [] := by
  refine ⟨?_, fun rs => rfl⟩
  intro msgs
  induction msgs with
  | nil => rfl
  | cons m rest ih =>
    cases m with
    | system c => simp [convertMessages, emitMessage, ih]
    | user c => cases c <;> simp [convertMessages, emitMessage, ih]
    | assistant c => cases c <;> simp [convertMessages, emitMessage, ih]
    | functionExecutionResult c => simp [convertMessages, emitMessage, ih]

/-- C3: an assistant message with non-string content produces no pair at all
(the surrounding conversions are simply concatenated) and the output is
strictly shorter than the input; an assistant message with string content
produces the pair `("assistant", content)`. -/
theorem convertMessages_assistant_cases (l1 l2 : List LLMMessage)
    (cs : List FunctionCall) (s : String) :
    convertMessages (l1 ++ LLMMessage.assistant (AssistantContent.calls cs) :: l2)
      = convertMessages l1 ++ convertMessages l2
    ∧ (convertMessages (l1 ++ LLMMessage.assistant (AssistantContent.calls cs) :: l2)).length
      < (l1 ++ LLMMessage.assistant (AssistantContent.calls cs) :: l2).length
    ∧ convertMessages (l1 ++ LLMMessage.assistant (AssistantContent.str s) :: l2)
      = convertMessages l1 ++ ChatPair.mk "assistant" s :: convertMessages l2 := by
  have hdrop : convertMessages (l1 ++ LLMMessage.assistant (AssistantContent.calls cs) :: l2)
      = convertMessages l1 ++ convertMessages l2 := by
    rw [convertMessages_append]
    simp [convertMessages]
  refine ⟨hdrop, ?_, ?_⟩
  · rw [hdrop]
    have h1 := length_convertMessages_le l1
    have h2 := length_convertMessages_le l2
    simp only [List.length_append, List.length_cons]
    omega
  · rw [convertMessages_append]
    simp [convertMessages]

/-- C4: the usage attached to `create`'s result reports `completion_tokens`
equal to the number of whitespace-separated tokens of the returned content
and `prompt_tokens` equal to 0. -/
theorem create_usage_counts (harness : List ChatPair → String)
    (messages : List LLMMessage) (tools : List ToolSchema)
    (json_output : Option Bool) (extra_create_args : List (String × String))
    (cancellation_token : Option CancellationToken) (st : AdapterState) :
    (create harness messages tools json_output extra_create_args
        cancellation_token st).1.usage.completion_tokens
      = (pySplit (create harness messages tools json_output extra_create_args
        cancellation_token st).1.content).length
    ∧ (create harness messages tools json_output extra_create_args
        cancellation_token st).1.usage.prompt_tokens = 0 :=
  ⟨rfl, rfl⟩

/-- C5: starting from a fresh adapter, after two sequential `create` calls
`total_usage` is the componentwise sum of the two calls' reported usages. -/
theorem total_usage_after_two_creates (harness : List ChatPair → String)
    (m1 m2 : List LLMMessage) (t1 t2 : List ToolSchema)
    (j1 j2 : Option Bool) (e1 e2 : List (String × String))
    (c1 c2 : Option CancellationToken) :
    total_usage (create harness m2 t2 j2 e2 c2
        (create harness m1 t1 j1 e1 c1 adapterInit).2).2
      = ⟨(create harness m1 t1 j1 e1 c1 adapterInit).1.usage.prompt_tokens
          + (create harness m2 t2 j2 e2 c2
            (create harness m1 t1 j1 e1 c1 adapterInit).2).1.usage.prompt_tokens,
         (create harness m1 t1 j1 e1 c1 adapterInit).1.usage.completion_tokens
          + (create harness m2 t2 j2 e2 c2
            (create harness m1 t1 j1 e1 c1 adapterInit).2).1.usage.completion_tokens⟩ := by
  simp [create, total_usage, adapterInit]

/-- C6: `create` always returns finish reason `"stop"` and `cached = false`. -/
theorem create_stop_uncached (harness : List ChatPair → String)
    (messages : List LLMMessage) (tools : List ToolSchema)
    (json_output : Option Bool) (extra_create_args : List (String × String))
    (cancellation_token : Option CancellationToken) (st : AdapterState) :
    (create harness messages tools json_output extra_create_args
        cancellation_token st).1.finish_reason = "stop"
    ∧ (create harness messages tools json_output extra_create_args
        cancellation_token st).1.cached = false :=
  ⟨rfl, rfl⟩

/-- C7: a system message converts to the pair `("system", content)` verbatim;
a user message converts to `("user", content)` when the content is a plain
string and to `("user", "")` otherwise. -/
theorem convertMessages_system_user (s : String) (parts : List String)
    (rest : List LLMMessage) :
    convertMessages (LLMMessage.system s :: rest)
      = ChatPair.mk "system" s :: convertMessages rest
    ∧ convertMessages (LLMMessage.user (UserContent.str s) :: rest)
      = ChatPair.mk "user" s :: convertMessages rest
    ∧ convertMessages (LLMMessage.user (UserContent.parts parts) :: rest)
      = ChatPair.mk "user" "" :: convertMessages rest :=
  ⟨rfl, rfl, rfl⟩

/-- C8: two `create` calls differing only in `tools`, `json_output`,
`extra_create_args` or `cancellation_token` return the same result and the
same updated usage state: those parameters are never consulted. -/
theorem create_ignores_optional_params (harness : List ChatPair → String)
    (messages : List LLMMessage) (t1 t2 : List ToolSchema)
    (j1 j2 : Option Bool) (e1 e2 : List (String × String))
    (c1 c2 : Option CancellationToken) (st : AdapterState) :
    create harness messages t1 j1 e1 c1 st
      = create harness messages t2 j2 e2 c2 st :=
  rfl

/-- C9: `count_tokens` and `remaining_tokens` return 0 for every message
sequence and tool list. -/
theorem count_tokens_and_remaining_tokens_zero (messages : List LLMMessage)
    (tools : List ToolSchema) :
    count_tokens messages tools = 0 ∧ remaining_tokens messages tools = 0 :=
  ⟨rfl, rfl⟩

/-- C10: when the harness raises, `create` propagates the error and the
usage counters (the whole adapter state) are unchanged. -/
theorem createE_error_leaves_state (harness : List ChatPair → Except String String)
    (messages : List LLMMessage) (st : AdapterState) (e : String)
    (h : harness (convertMessages messages) = Except.error e) :
    createE harness messages st = (Except.error e, st) := by
  simp [createE, h]

/-- C10 witness: a harness that always raises leaves the fresh adapter state
intact. -/
theorem createE_error_leaves_state_witness :
    createE (fun _ => Except.error "boom") [] adapterInit
      = (Except.error "boom", adapterInit) :=
  createE_error_leaves_state (fun _ => Except.error "boom") [] adapterInit "boom" rfl
